import Mathlib

/-!
Verification of the `gdata.contacts.service` module (file
`src/gdata/contacts/service.py`) of the gdata-python-client repository.

The module is a thin client facade: it builds feed URIs, normalizes edit
URIs, and delegates every network operation to the generic authenticated
feed service base class `gdata.service.GDataService` (not part of the
sources under verification) together with the `gdata.contacts` entry and
feed types and their deserializers (also not part of the sources).  Those
missing collaborators are modelled from the specification; the facade
methods themselves are translated line by line from the Python source.

Python strings are modelled as Lean `String`; the Python string
operations used by the source (`startswith`, `len`, slicing) operate on
characters, so they are defined here over the character list `String.data`
to keep them kernel-computable.
-/

set_option maxRecDepth 20000

namespace Gdata

/-- Python `s.startswith(p)`: character-level prefix test. -/
def pyStartsWith (s p : String) : Bool :=
  p.data.isPrefixOf s.data

/-- Python `len(s)`: number of characters. -/
def pyLen (s : String) : Nat :=
  s.data.length

/-- Python `s[n:]`: drop the first `n` characters. -/
def pyDrop (s : String) (n : Nat) : String :=
  String.mk (s.data.drop n)

/-- Python truthiness of a string: the empty string is falsy. -/
def pyTruthyStr (s : String) : Bool :=
  s ≠ ""

/-- Python `a or b` on a string `a` (with `b` a string): returns `a` when
`a` is truthy (non-empty), otherwise `b`. -/
def pyOrStr (a b : String) : String :=
  if a = "" then b else a

/-- Python `a or b` where `a` is an optional string (`None` or `str`):
`None` and the empty string are falsy. -/
def pyOrOptStr (a : Option String) (b : String) : String :=
  match a with
  | none => b
  | some s => pyOrStr s b

/-! ## HTTP model

The transport collaborator (`gdata.service.GDataService`) is not in the
verified sources; requests and responses are modelled from the
specification of the external interface: `get`, `post`, `put`, `delete`,
each issuing one HTTP request and raising a structured request error on a
non-2xx status. -/

/-- HTTP method of an issued request. -/
inductive HttpMethod where
  | GET
  | POST
  | PUT
  | DELETE
deriving DecidableEq, Repr

/-- URL parameters as passed through by the facade (Python: an optional
dict); the facade never inspects them. -/
abbrev UrlParams := Option (List (String × String))

/-- One HTTP request as handed to the transport collaborator. -/
structure Request where
  method : HttpMethod
  uri : String
  body : Option String
  urlParams : UrlParams
  escapeParams : Bool
deriving DecidableEq, Repr

/-- The transport response triple reported for a request. -/
structure HttpResponse where
  status : Nat
  reason : String
  body : String
deriving DecidableEq, Repr

/-- The transport collaborator: a deterministic environment mapping each
request to the response the server reports. -/
abbrev Transport := Request → HttpResponse

/-- Modelled from the spec: a response status counts as success exactly
when it is 2xx; any non-2xx response is surfaced as a request error. -/
def isSuccessStatus (status : Nat) : Bool :=
  200 ≤ status && status < 300

/-- Errors surfaced by the client.  `requestError` models
`gdata.contacts.service.RequestError` carrying the status, reason and
body triple verbatim; `attributeError` models the local Python
`AttributeError` raised when an attribute (such as `.href`) is read from
`None`, i.e. a local lookup failure with no network call involved. -/
inductive ServiceError where
  | requestError (status : Nat) (reason : String) (body : String)
  | attributeError
deriving DecidableEq, Repr

/-- Result of one client operation: the returned value or raised error,
together with the list of HTTP requests issued, in order. -/
structure OpResult (α : Type) where
  result : Except ServiceError α
  requests : List Request
deriving Repr

/-- Modelled from the spec: `GDataService.Get` — issue one GET request;
on a 2xx status return the response body through the converter, otherwise
raise a request error carrying the status, reason and body verbatim. -/
def svcGet {α : Type} (t : Transport) (uri : String) (conv : String → α) :
    OpResult α :=
  let req : Request := ⟨.GET, uri, none, none, true⟩
  let resp := t req
  { result :=
      if isSuccessStatus resp.status then .ok (conv resp.body)
      else .error (.requestError resp.status resp.reason resp.body),
    requests := [req] }

/-- Modelled from the spec: `GDataService.Post` — issue one POST request
carrying the serialized body; converter and error handling as for GET. -/
def svcPost {α : Type} (t : Transport) (body uri : String) (ps : UrlParams)
    (esc : Bool) (conv : String → α) : OpResult α :=
  let req : Request := ⟨.POST, uri, some body, ps, esc⟩
  let resp := t req
  { result :=
      if isSuccessStatus resp.status then .ok (conv resp.body)
      else .error (.requestError resp.status resp.reason resp.body),
    requests := [req] }

/-- Modelled from the spec: `GDataService.Put` — issue one PUT request
carrying the serialized body; converter and error handling as for GET. -/
def svcPut {α : Type} (t : Transport) (body uri : String) (ps : UrlParams)
    (esc : Bool) (conv : String → α) : OpResult α :=
  let req : Request := ⟨.PUT, uri, some body, ps, esc⟩
  let resp := t req
  { result :=
      if isSuccessStatus resp.status then .ok (conv resp.body)
      else .error (.requestError resp.status resp.reason resp.body),
    requests := [req] }

/-- Modelled from the spec: `GDataService.Delete` — issue one DELETE
request with no body; returns an acknowledgment on 2xx, otherwise raises
a request error carrying the status, reason and body verbatim. -/
def svcDelete (t : Transport) (uri : String) (ps : UrlParams) (esc : Bool) :
    OpResult Unit :=
  let req : Request := ⟨.DELETE, uri, none, ps, esc⟩
  let resp := t req
  { result :=
      if isSuccessStatus resp.status then .ok ()
      else .error (.requestError resp.status resp.reason resp.body),
    requests := [req] }

/-! ## Entry and feed types with their deserializers

The `gdata.contacts` entry/feed classes and their `...FromString`
deserializers are external collaborators (Atom/XML parsing is out of
scope); they are modelled from the specification: each wire resource is
kept as its serialized form, and a contact entry additionally carries the
optional photo link and photo-edit link that the photo operations
extract.  A link object, when present, carries its target URL in `href`. -/

/-- An Atom link object; `href` is its target URL. -/
structure Link where
  href : String
deriving DecidableEq, Repr

/-- Modelled from the spec: `gdata.contacts.ContactEntry`.  `xml` is the
serialized form sent as a request body; `photoLink` is the result of
`GetPhotoLink()` and `photoEditLink` the result of `GetPhotoEditLink()`,
each `none` when the entry lacks that link (Python: the method returns
`None`). -/
structure ContactEntry where
  xml : String
  photoLink : Option Link
  photoEditLink : Option Link
deriving DecidableEq, Repr

/-- Modelled from the spec: `gdata.contacts.GroupEntry` (serialized form
only; nothing else is inspected by the facade). -/
structure GroupEntry where
  xml : String
deriving DecidableEq, Repr

/-- Modelled from the spec: `gdata.contacts.ProfileEntry`. -/
structure ProfileEntry where
  xml : String
deriving DecidableEq, Repr

/-- Modelled from the spec: `gdata.contacts.ContactsFeed`. -/
structure ContactsFeed where
  xml : String
deriving DecidableEq, Repr

/-- Modelled from the spec: `gdata.contacts.GroupsFeed`. -/
structure GroupsFeed where
  xml : String
deriving DecidableEq, Repr

/-- Modelled from the spec: `gdata.contacts.ProfilesFeed`. -/
structure ProfilesFeed where
  xml : String
deriving DecidableEq, Repr

/-- Modelled from the spec: `gdata.contacts.ContactEntryFromString`, the
kind-specific deserializer for a single contact entry (parsing internals
are out of scope; the raw body is retained). -/
def ContactEntryFromString (s : String) : ContactEntry :=
  ⟨s, none, none⟩

/-- Modelled from the spec: `gdata.contacts.GroupEntryFromString`. -/
def GroupEntryFromString (s : String) : GroupEntry :=
  ⟨s⟩

/-- Modelled from the spec: `gdata.contacts.ProfileEntryFromString`. -/
def ProfileEntryFromString (s : String) : ProfileEntry :=
  ⟨s⟩

/-- Modelled from the spec: `gdata.contacts.ContactsFeedFromString`. -/
def ContactsFeedFromString (s : String) : ContactsFeed :=
  ⟨s⟩

/-- Modelled from the spec: `gdata.contacts.GroupsFeedFromString`. -/
def GroupsFeedFromString (s : String) : GroupsFeed :=
  ⟨s⟩

/-- Modelled from the spec: `gdata.contacts.ProfilesFeedFromString`. -/
def ProfilesFeedFromString (s : String) : ProfilesFeed :=
  ⟨s⟩

/-! ## Photo operation arguments -/

/-- The duck-typed `contact_entry_or_url` argument of the photo
operations: either a `gdata.contacts.ContactEntry` or a URL string (the
Python code dispatches with `isinstance`). -/
inductive PhotoTarget where
  | entry (e : ContactEntry)
  | uri (u : String)
deriving DecidableEq, Repr

/-- Modelled from the spec: `gdata.MediaSource`, the uniform wrapper for
a binary photo payload carrying content type and content length. -/
structure MediaSource where
  content : String
  contentType : Option String
  contentLength : Option Nat
deriving DecidableEq, Repr

/-- The duck-typed `media` argument of `ChangePhoto`: a `MediaSource`, a
file-like object (modelled by the data its `read` yields), or a file
name. -/
inductive Media where
  | source (m : MediaSource)
  | fileLike (content : String)
  | filePath (path : String)
deriving DecidableEq, Repr

/-- The file system environment used when `media` is a file name: maps a
path to the file contents (`os.path.getsize` is its length). -/
abbrev FileSystem := String → String

/-! ## The ContactsService client

Translated from `class ContactsService` in
`src/gdata/contacts/service.py`.  Only the configuration read by the
facade methods is retained: the server host name and the default contact
list (both set in `__init__`; authentication and session state belong to
the out-of-scope base class).  The constructor defaults are
`server = www.google.com` and `contact_list = default`. -/
structure ContactsService where
  server : String
  contact_list : String
deriving DecidableEq, Repr

namespace ContactsService

/-- `ContactsService.GetFeedUri`, translated from the source:

    contact_list = contact_list or self.contact_list
    if kind == 'profiles':
      contact_list = 'domain/%s' % contact_list
    prefix = scheme and '%s://%s' % (scheme, self.server) or ''
    return '%s/m8/feeds/%s/%s/%s' % (prefix, kind, contact_list, projection)

The Python call-site defaults are `kind = contacts`,
`contact_list = None`, `projection = full`, `scheme = None`; the `or`
and `and ... or` chains use Python truthiness (`None` and the empty
string are falsy; a non-empty string such as `scheme://server` is
truthy). -/
def GetFeedUri (self : ContactsService) (kind : String)
    (contact_list : Option String) (projection : String)
    (scheme : Option String) : String :=
  let cl0 := pyOrOptStr contact_list self.contact_list
  let cl1 := if kind = "profiles" then "domain/" ++ cl0 else cl0
  let pre :=
    match scheme with
    | none => ""
    | some s => if s = "" then "" else s ++ "://" ++ self.server
  pre ++ "/m8/feeds/" ++ kind ++ "/" ++ cl1 ++ "/" ++ projection

/-- `ContactsService._CleanUri`, translated from the source:

    url_prefix = 'http://%s' % self.server
    if uri.startswith(url_prefix):
      uri = uri[len(url_prefix):]
    return uri
-/
def CleanUri (self : ContactsService) (uri : String) : String :=
  let urlPref := "http://" ++ self.server
  if pyStartsWith uri urlPref then pyDrop uri (pyLen urlPref) else uri

/-- `ContactsService.GetContactsFeed`: `uri = uri or self.GetFeedUri()`
then GET with the contacts feed converter. -/
def GetContactsFeed (self : ContactsService) (t : Transport)
    (uri : Option String) : OpResult ContactsFeed :=
  let u := pyOrOptStr uri (self.GetFeedUri "contacts" none "full" none)
  svcGet t u ContactsFeedFromString

/-- `ContactsService.GetContact`: GET the given URI with the contact
entry converter. -/
def GetContact (self : ContactsService) (t : Transport) (uri : String) :
    OpResult ContactEntry :=
  svcGet t uri ContactEntryFromString

/-- `ContactsService.CreateContact`:
`insert_uri = insert_uri or self.GetFeedUri()` then POST the new contact
with the contact entry converter. -/
def CreateContact (self : ContactsService) (t : Transport)
    (new_contact : ContactEntry) (insert_uri : Option String)
    (url_params : UrlParams) (escape_params : Bool) : OpResult ContactEntry :=
  let iu := pyOrOptStr insert_uri (self.GetFeedUri "contacts" none "full" none)
  svcPost t new_contact.xml iu url_params escape_params ContactEntryFromString

/-- `ContactsService.UpdateContact`: PUT the updated contact to
`self._CleanUri(edit_uri)` with the contact entry converter. -/
def UpdateContact (self : ContactsService) (t : Transport)
    (edit_uri : String) (updated_contact : ContactEntry)
    (url_params : UrlParams) (escape_params : Bool) : OpResult ContactEntry :=
  svcPut t updated_contact.xml (self.CleanUri edit_uri) url_params
    escape_params ContactEntryFromString

/-- `ContactsService.DeleteContact`: DELETE `self._CleanUri(edit_uri)`
(the `extra_headers` argument is accepted and dropped by the source). -/
def DeleteContact (self : ContactsService) (t : Transport)
    (edit_uri : String) (_extra_headers : Option (List (String × String)))
    (url_params : UrlParams) (escape_params : Bool) : OpResult Unit :=
  svcDelete t (self.CleanUri edit_uri) url_params escape_params

/-- `ContactsService.GetGroupsFeed`:
`uri = uri or self.GetFeedUri('groups')` then GET with the groups feed
converter. -/
def GetGroupsFeed (self : ContactsService) (t : Transport)
    (uri : Option String) : OpResult GroupsFeed :=
  let u := pyOrOptStr uri (self.GetFeedUri "groups" none "full" none)
  svcGet t u GroupsFeedFromString

/-- `ContactsService.CreateGroup`:
`insert_uri = insert_uri or self.GetFeedUri('groups')` then POST with the
group entry converter. -/
def CreateGroup (self : ContactsService) (t : Transport)
    (new_group : GroupEntry) (insert_uri : Option String)
    (url_params : UrlParams) (escape_params : Bool) : OpResult GroupEntry :=
  let iu := pyOrOptStr insert_uri (self.GetFeedUri "groups" none "full" none)
  svcPost t new_group.xml iu url_params escape_params GroupEntryFromString

/-- `ContactsService.UpdateGroup`: PUT to `self._CleanUri(edit_uri)` with
the group entry converter. -/
def UpdateGroup (self : ContactsService) (t : Transport)
    (edit_uri : String) (updated_group : GroupEntry)
    (url_params : UrlParams) (escape_params : Bool) : OpResult GroupEntry :=
  svcPut t updated_group.xml (self.CleanUri edit_uri) url_params
    escape_params GroupEntryFromString

/-- `ContactsService.DeleteGroup`: DELETE `self._CleanUri(edit_uri)`. -/
def DeleteGroup (self : ContactsService) (t : Transport)
    (edit_uri : String) (_extra_headers : Option (List (String × String)))
    (url_params : UrlParams) (escape_params : Bool) : OpResult Unit :=
  svcDelete t (self.CleanUri edit_uri) url_params escape_params

/-- The payload construction of `ContactsService.ChangePhoto`: a
`MediaSource` is used as is; a file-like object becomes a `MediaSource`
with the given content type and length; a file name is wrapped with the
content length inferred from the file size (`gdata.MediaSource` with
`file_path`, modelled from the spec). -/
def buildPhotoPayload (fs : FileSystem) (media : Media)
    (content_type : Option String) (content_length : Option Nat) :
    MediaSource :=
  match media with
  | .source m => m
  | .fileLike c => ⟨c, content_type, content_length⟩
  | .filePath p => ⟨fs p, content_type, some (pyLen (fs p))⟩

/-- `ContactsService.ChangePhoto`: resolve the target URL — from a
contact entry, `url = contact_entry_or_url.GetPhotoEditLink().href`,
which raises `AttributeError` when `GetPhotoEditLink()` is `None`; from a
string, the string itself — then wrap the media into a `MediaSource` and
PUT it to that URL (`self.Put(payload, url)`, no URL parameters, default
escaping, no converter: the raw server response is returned). -/
def ChangePhoto (self : ContactsService) (t : Transport) (fs : FileSystem)
    (media : Media) (contact_entry_or_url : PhotoTarget)
    (content_type : Option String) (content_length : Option Nat) :
    OpResult String :=
  match contact_entry_or_url with
  | .entry e =>
    match e.photoEditLink with
    | none => { result := .error .attributeError, requests := [] }
    | some link =>
      svcPut t (buildPhotoPayload fs media content_type content_length).content
        link.href none true (fun s => s)
  | .uri u =>
    svcPut t (buildPhotoPayload fs media content_type content_length).content
      u none true (fun s => s)

/-- `ContactsService.GetPhoto`: from a contact entry, take
`GetPhotoLink()` and, only when that link is present, its `href`; from a
string, the string itself.  When the resolved URL is truthy, GET it with
the identity converter (`converter=str`) and return the raw body;
otherwise return `None` with no request issued. -/
def GetPhoto (self : ContactsService) (t : Transport)
    (contact_entry_or_url : PhotoTarget) : OpResult (Option String) :=
  let url : Option String :=
    match contact_entry_or_url with
    | .entry e =>
      match e.photoLink with
      | some link => some link.href
      | none => none
    | .uri u => some u
  match url with
  | some u =>
    if pyTruthyStr u then
      let r := svcGet t u (fun s => s)
      { result := r.result.map some, requests := r.requests }
    else
      { result := .ok none, requests := [] }
  | none => { result := .ok none, requests := [] }

/-- `ContactsService.DeletePhoto`: from a contact entry,
`url = contact_entry_or_url.GetPhotoEditLink().href` (raises
`AttributeError` when `GetPhotoEditLink()` is `None`); from a string, the
string itself.  When the resolved URL is truthy, DELETE it
(`self.Delete(url)`, no parameters); otherwise do nothing. -/
def DeletePhoto (self : ContactsService) (t : Transport)
    (contact_entry_or_url : PhotoTarget) : OpResult Unit :=
  match contact_entry_or_url with
  | .entry e =>
    match e.photoEditLink with
    | none => { result := .error .attributeError, requests := [] }
    | some link =>
      if pyTruthyStr link.href then svcDelete t link.href none true
      else { result := .ok (), requests := [] }
  | .uri u =>
    if pyTruthyStr u then svcDelete t u none true
    else { result := .ok (), requests := [] }

/-- `ContactsService.GetProfilesFeed`:
`uri = uri or self.GetFeedUri('profiles')` then GET with the profiles
feed converter. -/
def GetProfilesFeed (self : ContactsService) (t : Transport)
    (uri : Option String) : OpResult ProfilesFeed :=
  let u := pyOrOptStr uri (self.GetFeedUri "profiles" none "full" none)
  svcGet t u ProfilesFeedFromString

/-- `ContactsService.GetProfile`: GET the given URI with the profile
entry converter. -/
def GetProfile (self : ContactsService) (t : Transport) (uri : String) :
    OpResult ProfileEntry :=
  svcGet t uri ProfileEntryFromString

/-- `ContactsService.UpdateProfile`: PUT to `self._CleanUri(edit_uri)`
with the profile entry converter. -/
def UpdateProfile (self : ContactsService) (t : Transport)
    (edit_uri : String) (updated_profile : ProfileEntry)
    (url_params : UrlParams) (escape_params : Bool) : OpResult ProfileEntry :=
  svcPut t updated_profile.xml (self.CleanUri edit_uri) url_params
    escape_params ProfileEntryFromString

/-- `ContactsService.ExecuteBatch`: one POST of the (serialized, duck
typed) batch feed to the given URL through the converter:
`return self.Post(batch_feed, url, converter=converter)`. -/
def ExecuteBatch {α : Type} (self : ContactsService) (t : Transport)
    (batch_feed : String) (url : String) (conv : String → α) : OpResult α :=
  svcPost t batch_feed url none true conv

/-- `ContactsService.ExecuteBatchProfiles`: identical body,
`return self.Post(batch_feed, url, converter=converter)`; only the
default converter differs. -/
def ExecuteBatchProfiles {α : Type} (self : ContactsService) (t : Transport)
    (batch_feed : String) (url : String) (conv : String → α) : OpResult α :=
  svcPost t batch_feed url none true conv

/-- The Python default converter of `ExecuteBatch`
(`converter=gdata.contacts.ContactsFeedFromString`). -/
def executeBatchDefaultConv : String → ContactsFeed :=
  ContactsFeedFromString

/-- The Python default converter of `ExecuteBatchProfiles`
(`converter=gdata.contacts.ProfilesFeedFromString`). -/
def executeBatchProfilesDefaultConv : String → ProfilesFeed :=
  ProfilesFeedFromString

end ContactsService

/-! ## Spec-side definitions and concrete fixtures

`specListSegment` and `uriHost` follow the words of the specification
(not the source); they are used only to state claims.  The fixtures are
concrete clients, transports and entries used by closed witness and
counterexample statements. -/

/-- Spec-side: the list-identifier path segment the claim describes —
the supplied list identifier or, by default, the configured contact
list, rewritten to `domain/<listId>` for the profiles kind. -/
def specListSegment (self : ContactsService) (kind : String)
    (contact_list : Option String) : String :=
  let eff :=
    match contact_list with
    | none => self.contact_list
    | some s => if s = "" then self.contact_list else s
  if kind = "profiles" then "domain/" ++ eff else eff

/-- Spec-side: the host named by an absolute `http` URI (the characters
between `http://` and the first slash), used to state the claim that a
URI naming a different host passes through normalization unchanged. -/
def uriHost (uri : String) : Option String :=
  if pyStartsWith uri "http://" then
    some (String.mk ((pyDrop uri 7).data.takeWhile (fun c => c ≠ '/')))
  else none

/-- A client with the constructor defaults
(`server='www.google.com'`, `contact_list='default'`). -/
def svcW : ContactsService :=
  ⟨"www.google.com", "default"⟩

/-- A transport whose every response is `200 OK` with body `BODY`. -/
def tOk : Transport :=
  fun _ => ⟨200, "OK", "BODY"⟩

/-- A transport whose every response is `404 Not Found` with body
`no-such-contact`. -/
def tFail : Transport :=
  fun _ => ⟨404, "Not Found", "no-such-contact"⟩

/-- A contact entry carrying no photo link and no photo-edit link. -/
def entryNoLinks : ContactEntry :=
  ⟨"<entry/>", none, none⟩

/-- A contact entry whose photo link is present but has an empty URL. -/
def entryEmptyPhotoHref : ContactEntry :=
  ⟨"<entry/>", some ⟨""⟩, none⟩

/-- A contact entry whose photo-edit link is present but has an empty
URL. -/
def entryEmptyEditHref : ContactEntry :=
  ⟨"<entry/>", none, some ⟨""⟩⟩

/-- A contact entry with both photo links fully populated. -/
def entryWithLinks : ContactEntry :=
  ⟨"<entry/>", some ⟨"http://google.com/m8/feeds/photos/media/default/c1"⟩,
    some ⟨"http://www.google.com/m8/feeds/photos/media/default/c1/e"⟩⟩

/-- A sample contact payload. -/
def contactW : ContactEntry :=
  ⟨"<entry>c</entry>", none, none⟩

/-- A sample group payload. -/
def groupW : GroupEntry :=
  ⟨"<entry>g</entry>"⟩

/-- A sample profile payload. -/
def profileW : ProfileEntry :=
  ⟨"<entry>p</entry>"⟩

/-- A sample media payload already wrapped as a `MediaSource`. -/
def mediaW : Media :=
  .source ⟨"IMGBYTES", some "image/jpeg", some 8⟩

/-- An empty file system environment. -/
def fsW : FileSystem :=
  fun _ => ""

/-! ## General lemmas about the string model -/

theorem str_data_append (a b : String) : (a ++ b).data = a.data ++ b.data :=
  rfl

theorem str_eq_of_data {a b : String} (h : a.data = b.data) : a = b := by
  cases a
  cases b
  exact congrArg String.mk h

theorem str_empty_append (s : String) : "" ++ s = s :=
  rfl

/-- Fold a ground prefix: from `a ++ b = c` conclude
`a ++ (b ++ s) = c ++ s`. -/
theorem str_append_fold {a b c : String} (h : a ++ b = c) (s : String) :
    a ++ (b ++ s) = c ++ s := by
  rw [← String.append_assoc, h]

theorem pyStartsWith_append (p s : String) : pyStartsWith (p ++ s) p = true := by
  simp only [pyStartsWith, str_data_append]
  exact List.isPrefixOf_iff_prefix.mpr (List.prefix_append _ _)

theorem pyDrop_append (p s : String) : pyDrop (p ++ s) (pyLen p) = s := by
  simp only [pyDrop, pyLen, str_data_append, List.drop_left]

/-- A string starting with the prefix decomposes as the prefix followed
by the rest. -/
theorem pyStartsWith_decomp {s p : String} (h : pyStartsWith s p = true) :
    ∃ r : String, s = p ++ r := by
  have hp : p.data <+: s.data := List.isPrefixOf_iff_prefix.mp h
  obtain ⟨t, ht⟩ := hp
  exact ⟨String.mk t, str_eq_of_data ht.symm⟩

/-- Normalization strips exactly a matching `http://server` prefix. -/
theorem cleanUri_strip (self : ContactsService) (rest : String) :
    self.CleanUri (("http://" ++ self.server) ++ rest) = rest := by
  simp [ContactsService.CleanUri, pyStartsWith_append, pyDrop_append]

/-- A URI that begins with `https://` never begins with the
`http://server` prefix, whatever the configured server is. -/
theorem https_not_http (server r : String) :
    pyStartsWith ("https://" ++ r) ("http://" ++ server) = false := by
  cases hb : pyStartsWith ("https://" ++ r) ("http://" ++ server) with
  | false => rfl
  | true =>
    exfalso
    obtain ⟨q, hq⟩ := pyStartsWith_decomp hb
    have hd := congrArg String.data hq
    simp only [str_data_append] at hd
    simp [List.append_assoc] at hd

/-- The effective list segment computed by the source equals the
spec-side description. -/
theorem specListSegment_eq (self : ContactsService) (kind : String)
    (cl : Option String) :
    (if kind = "profiles" then "domain/" ++ pyOrOptStr cl self.contact_list
     else pyOrOptStr cl self.contact_list) = specListSegment self kind cl := by
  unfold specListSegment pyOrOptStr pyOrStr
  cases cl <;> rfl

/-! ## Claim C1 -/

/-- C1 counterexample: the claim as stated fails at an empty string
scheme and an empty string list identifier — for
`GetFeedUri('contacts', '', 'full', '')` the claim predicts the string
`://www.google.com/m8/feeds/contacts//full` (scheme and list identifier
are both given), but the source treats falsy arguments as absent and
returns the host-relative default-list path. -/
theorem c1_counterexample :
    svcW.GetFeedUri "contacts" (some "") "full" (some "") =
      "/m8/feeds/contacts/default/full" ∧
    "/m8/feeds/contacts/default/full" ≠
      "" ++ "://" ++ svcW.server ++ "/m8/feeds/" ++ "contacts" ++ "/" ++ "" ++
        "/" ++ "full" := by
  exact ⟨by decide, by decide⟩

/-- C1 (amended): for every kind, list identifier, projection and
optional scheme, where an empty-string scheme or list identifier is
treated as omitted (Python truthiness), `GetFeedUri` returns
`<scheme>://<server>/m8/feeds/<kind>/<listId>/<projection>` when a
non-empty scheme is given and the host-relative path
`/m8/feeds/<kind>/<listId>/<projection>` when the scheme is omitted or
empty, where `listId` is the non-empty argument or else the configured
contact list, rewritten to `domain/<listId>` for the profiles kind; in
particular `GetFeedUri('contacts', 'default', 'full', None)` is
`/m8/feeds/contacts/default/full`. -/
theorem c1_get_feed_uri (self : ContactsService) (kind : String)
    (contact_list : Option String) (projection : String)
    (scheme : Option String) :
    (∀ s : String, scheme = some s → s ≠ "" →
      self.GetFeedUri kind contact_list projection scheme =
        s ++ "://" ++ self.server ++ "/m8/feeds/" ++ kind ++ "/" ++
          specListSegment self kind contact_list ++ "/" ++ projection) ∧
    (scheme = none ∨ scheme = some "" →
      self.GetFeedUri kind contact_list projection scheme =
        "/m8/feeds/" ++ kind ++ "/" ++
          specListSegment self kind contact_list ++ "/" ++ projection) ∧
    svcW.GetFeedUri "contacts" (some "default") "full" none =
      "/m8/feeds/contacts/default/full" := by
  refine ⟨?_, ?_, by decide⟩
  · intro s hs hne
    subst hs
    simp only [ContactsService.GetFeedUri, specListSegment_eq, if_neg hne]
  · intro hs
    rcases hs with hs | hs <;> subst hs <;>
      simp [ContactsService.GetFeedUri, specListSegment_eq, str_empty_append]

/-- C1 witness: the amended theorem evaluated at the default client with
kind `groups`, list `x`, projection `full` and scheme `http`. -/
theorem c1_witness :
    svcW.GetFeedUri "groups" (some "x") "full" (some "http") =
      "http://www.google.com/m8/feeds/groups/x/full" := by
  have h := (c1_get_feed_uri svcW "groups" (some "x") "full" (some "http")).1
    "http" rfl (by decide)
  exact h.trans (by decide)

/-! ## Claim C2 -/

/-- C2 counterexample: `http://www.google.com.evil.test/a` names the
host `www.google.com.evil.test`, different from the configured server
`www.google.com`, yet `_CleanUri` does not return it unchanged — the
check is a string-prefix test, and this URI extends the configured
prefix, so it is stripped to `.evil.test/a`. -/
theorem c2_counterexample :
    uriHost "http://www.google.com.evil.test/a" =
      some "www.google.com.evil.test" ∧
    some svcW.server ≠ uriHost "http://www.google.com.evil.test/a" ∧
    svcW.CleanUri "http://www.google.com.evil.test/a" = ".evil.test/a" ∧
    svcW.CleanUri "http://www.google.com.evil.test/a" ≠
      "http://www.google.com.evil.test/a" := by
  exact ⟨by decide, by decide, by decide, by decide⟩

/-- C2 (amended): `_CleanUri` returns the URI with exactly the string
prefix `http://<configured-server>` removed when the URI starts with
that prefix (so prefixing the result with it restores the URI), and
returns the URI unchanged otherwise; in particular a URI beginning with
`https://` is always returned unmodified, while a URI naming a different
host is returned unmodified only when it does not begin with the string
`http://<configured-server>`. -/
theorem c2_clean_uri (self : ContactsService) (uri : String) :
    (pyStartsWith uri ("http://" ++ self.server) = true →
      ("http://" ++ self.server) ++ self.CleanUri uri = uri) ∧
    (pyStartsWith uri ("http://" ++ self.server) = false →
      self.CleanUri uri = uri) ∧
    (pyStartsWith uri "https://" = true → self.CleanUri uri = uri) := by
  refine ⟨?_, ?_, ?_⟩
  · intro h
    obtain ⟨r, hr⟩ := pyStartsWith_decomp h
    subst hr
    rw [cleanUri_strip]
  · intro h
    simp [ContactsService.CleanUri, h]
  · intro h
    obtain ⟨r, hr⟩ := pyStartsWith_decomp h
    subst hr
    have hf := https_not_http self.server r
    simp [ContactsService.CleanUri, hf]

/-- C2 witness: stripping `http://www.google.com` from a full feed URI
keeps the leading slash, and an `https` URI passes through unchanged. -/
theorem c2_witness :
    ("http://" ++ svcW.server) ++
        svcW.CleanUri "http://www.google.com/m8/feeds/contacts/default/full/1" =
      "http://www.google.com/m8/feeds/contacts/default/full/1" ∧
    svcW.CleanUri "https://www.google.com/m8/feeds/contacts/default/full/1" =
      "https://www.google.com/m8/feeds/contacts/default/full/1" := by
  exact
    ⟨(c2_clean_uri svcW
        "http://www.google.com/m8/feeds/contacts/default/full/1").1 (by decide),
      (c2_clean_uri svcW
        "https://www.google.com/m8/feeds/contacts/default/full/1").2.2 (by decide)⟩

/-! ## Error pass-through lemmas for the service layer -/

theorem svcGet_error {α : Type} (t : Transport) (uri : String)
    (conv : String → α) (req : Request)
    (hreq : (svcGet t uri conv).requests = [req])
    (hfail : isSuccessStatus (t req).status = false) :
    (svcGet t uri conv).result =
      .error (.requestError (t req).status (t req).reason (t req).body) := by
  have he : req = ⟨.GET, uri, none, none, true⟩ := by
    simpa [svcGet] using hreq.symm
  subst he
  simp [svcGet, hfail]

theorem svcPost_error {α : Type} (t : Transport) (body uri : String)
    (ps : UrlParams) (esc : Bool) (conv : String → α) (req : Request)
    (hreq : (svcPost t body uri ps esc conv).requests = [req])
    (hfail : isSuccessStatus (t req).status = false) :
    (svcPost t body uri ps esc conv).result =
      .error (.requestError (t req).status (t req).reason (t req).body) := by
  have he : req = ⟨.POST, uri, some body, ps, esc⟩ := by
    simpa [svcPost] using hreq.symm
  subst he
  simp [svcPost, hfail]

theorem svcPut_error {α : Type} (t : Transport) (body uri : String)
    (ps : UrlParams) (esc : Bool) (conv : String → α) (req : Request)
    (hreq : (svcPut t body uri ps esc conv).requests = [req])
    (hfail : isSuccessStatus (t req).status = false) :
    (svcPut t body uri ps esc conv).result =
      .error (.requestError (t req).status (t req).reason (t req).body) := by
  have he : req = ⟨.PUT, uri, some body, ps, esc⟩ := by
    simpa [svcPut] using hreq.symm
  subst he
  simp [svcPut, hfail]

theorem svcDelete_error (t : Transport) (uri : String)
    (ps : UrlParams) (esc : Bool) (req : Request)
    (hreq : (svcDelete t uri ps esc).requests = [req])
    (hfail : isSuccessStatus (t req).status = false) :
    (svcDelete t uri ps esc).result =
      .error (.requestError (t req).status (t req).reason (t req).body) := by
  have he : req = ⟨.DELETE, uri, none, ps, esc⟩ := by
    simpa [svcDelete] using hreq.symm
  subst he
  simp [svcDelete, hfail]

/-! ## Claim C3 -/

/-- C3: for every non-2xx response reported by the transport to the one
request an operation issues, each of the nine get, create, update and
delete operations of the facade (`GetContact`, `CreateContact`,
`UpdateContact`, `DeleteContact`, `CreateGroup`, `UpdateGroup`,
`DeleteGroup`, `GetProfile`, `UpdateProfile`) surfaces a `RequestError`
carrying the numeric status, the reason phrase and the raw body exactly
as the transport reported them. -/
theorem c3_request_error_passthrough (self : ContactsService)
    (t : Transport) (uri edit_uri : String) (c : ContactEntry)
    (g : GroupEntry) (p : ProfileEntry) (iu : Option String)
    (hs : Option (List (String × String))) (ps : UrlParams) (esc : Bool) :
    (∀ req, (self.GetContact t uri).requests = [req] →
      isSuccessStatus (t req).status = false →
      (self.GetContact t uri).result =
        .error (.requestError (t req).status (t req).reason (t req).body)) ∧
    (∀ req, (self.CreateContact t c iu ps esc).requests = [req] →
      isSuccessStatus (t req).status = false →
      (self.CreateContact t c iu ps esc).result =
        .error (.requestError (t req).status (t req).reason (t req).body)) ∧
    (∀ req, (self.UpdateContact t edit_uri c ps esc).requests = [req] →
      isSuccessStatus (t req).status = false →
      (self.UpdateContact t edit_uri c ps esc).result =
        .error (.requestError (t req).status (t req).reason (t req).body)) ∧
    (∀ req, (self.DeleteContact t edit_uri hs ps esc).requests = [req] →
      isSuccessStatus (t req).status = false →
      (self.DeleteContact t edit_uri hs ps esc).result =
        .error (.requestError (t req).status (t req).reason (t req).body)) ∧
    (∀ req, (self.CreateGroup t g iu ps esc).requests = [req] →
      isSuccessStatus (t req).status = false →
      (self.CreateGroup t g iu ps esc).result =
        .error (.requestError (t req).status (t req).reason (t req).body)) ∧
    (∀ req, (self.UpdateGroup t edit_uri g ps esc).requests = [req] →
      isSuccessStatus (t req).status = false →
      (self.UpdateGroup t edit_uri g ps esc).result =
        .error (.requestError (t req).status (t req).reason (t req).body)) ∧
    (∀ req, (self.DeleteGroup t edit_uri hs ps esc).requests = [req] →
      isSuccessStatus (t req).status = false →
      (self.DeleteGroup t edit_uri hs ps esc).result =
        .error (.requestError (t req).status (t req).reason (t req).body)) ∧
    (∀ req, (self.GetProfile t uri).requests = [req] →
      isSuccessStatus (t req).status = false →
      (self.GetProfile t uri).result =
        .error (.requestError (t req).status (t req).reason (t req).body)) ∧
    (∀ req, (self.UpdateProfile t edit_uri p ps esc).requests = [req] →
      isSuccessStatus (t req).status = false →
      (self.UpdateProfile t edit_uri p ps esc).result =
        .error (.requestError (t req).status (t req).reason (t req).body)) := by
  exact ⟨fun req => svcGet_error t uri _ req,
    fun req => svcPost_error t c.xml _ ps esc _ req,
    fun req => svcPut_error t c.xml _ ps esc _ req,
    fun req => svcDelete_error t _ ps esc req,
    fun req => svcPost_error t g.xml _ ps esc _ req,
    fun req => svcPut_error t g.xml _ ps esc _ req,
    fun req => svcDelete_error t _ ps esc req,
    fun req => svcGet_error t uri _ req,
    fun req => svcPut_error t p.xml _ ps esc _ req⟩

/-- C3 witness: against a transport answering `404 Not Found` with body
`no-such-contact`, `GetContact` surfaces exactly that triple. -/
theorem c3_witness :
    (svcW.GetContact tFail "/m8/feeds/contacts/default/full/1").result =
      .error (.requestError 404 "Not Found" "no-such-contact") := by
  exact (c3_request_error_passthrough svcW tFail
      "/m8/feeds/contacts/default/full/1" "" contactW groupW profileW none
      none none true).1
    ⟨.GET, "/m8/feeds/contacts/default/full/1", none, none, true⟩ rfl (by decide)

/-! ## Claim C4 -/

/-- C4: every update and delete operation (`UpdateContact`,
`DeleteContact`, `UpdateGroup`, `DeleteGroup`, `UpdateProfile`) issues
its single PUT or DELETE against the normalized edit URI — the result of
`_CleanUri` applied to the caller-supplied string — never against the
raw string itself. -/
theorem c4_update_delete_normalized (self : ContactsService)
    (t : Transport) (edit_uri : String) (c : ContactEntry) (g : GroupEntry)
    (p : ProfileEntry) (hs : Option (List (String × String)))
    (ps : UrlParams) (esc : Bool) :
    (self.UpdateContact t edit_uri c ps esc).requests =
      [⟨.PUT, self.CleanUri edit_uri, some c.xml, ps, esc⟩] ∧
    (self.DeleteContact t edit_uri hs ps esc).requests =
      [⟨.DELETE, self.CleanUri edit_uri, none, ps, esc⟩] ∧
    (self.UpdateGroup t edit_uri g ps esc).requests =
      [⟨.PUT, self.CleanUri edit_uri, some g.xml, ps, esc⟩] ∧
    (self.DeleteGroup t edit_uri hs ps esc).requests =
      [⟨.DELETE, self.CleanUri edit_uri, none, ps, esc⟩] ∧
    (self.UpdateProfile t edit_uri p ps esc).requests =
      [⟨.PUT, self.CleanUri edit_uri, some p.xml, ps, esc⟩] :=
  ⟨rfl, rfl, rfl, rfl, rfl⟩

/-! ## Claim C8 -/

/-- The default contacts feed URI produced by `GetFeedUri()`. -/
theorem contacts_default_uri (self : ContactsService) :
    self.GetFeedUri "contacts" none "full" none =
      "/m8/feeds/contacts/" ++ self.contact_list ++ "/full" := by
  show "" ++ "/m8/feeds/" ++ "contacts" ++ "/" ++ self.contact_list ++ "/" ++
      "full" = "/m8/feeds/contacts/" ++ self.contact_list ++ "/full"
  rw [str_empty_append,
    show ("/m8/feeds/" : String) ++ "contacts" = "/m8/feeds/contacts" from by
      decide,
    show ("/m8/feeds/contacts" : String) ++ "/" = "/m8/feeds/contacts/" from by
      decide,
    String.append_assoc,
    show ("/" : String) ++ "full" = "/full" from by decide]

/-- The default groups feed URI produced by `GetFeedUri('groups')`. -/
theorem groups_default_uri (self : ContactsService) :
    self.GetFeedUri "groups" none "full" none =
      "/m8/feeds/groups/" ++ self.contact_list ++ "/full" := by
  show "" ++ "/m8/feeds/" ++ "groups" ++ "/" ++ self.contact_list ++ "/" ++
      "full" = "/m8/feeds/groups/" ++ self.contact_list ++ "/full"
  rw [str_empty_append,
    show ("/m8/feeds/" : String) ++ "groups" = "/m8/feeds/groups" from by
      decide,
    show ("/m8/feeds/groups" : String) ++ "/" = "/m8/feeds/groups/" from by
      decide,
    String.append_assoc,
    show ("/" : String) ++ "full" = "/full" from by decide]

/-- C8: with no insert URI supplied, `CreateContact` issues exactly one
POST to the default contacts feed URI
`/m8/feeds/contacts/<configured-list>/full` and `CreateGroup` exactly
one POST to `/m8/feeds/groups/<configured-list>/full`, each returning
(on a 2xx response) the response body deserialized by the corresponding
kind-specific entry converter. -/
theorem c8_create_default_post (self : ContactsService) (t : Transport)
    (c : ContactEntry) (g : GroupEntry) (ps : UrlParams) (esc : Bool) :
    (self.CreateContact t c none ps esc).requests =
      [⟨.POST, "/m8/feeds/contacts/" ++ self.contact_list ++ "/full",
        some c.xml, ps, esc⟩] ∧
    (isSuccessStatus (t ⟨.POST,
        "/m8/feeds/contacts/" ++ self.contact_list ++ "/full",
        some c.xml, ps, esc⟩).status = true →
      (self.CreateContact t c none ps esc).result =
        .ok (ContactEntryFromString (t ⟨.POST,
          "/m8/feeds/contacts/" ++ self.contact_list ++ "/full",
          some c.xml, ps, esc⟩).body)) ∧
    (self.CreateGroup t g none ps esc).requests =
      [⟨.POST, "/m8/feeds/groups/" ++ self.contact_list ++ "/full",
        some g.xml, ps, esc⟩] ∧
    (isSuccessStatus (t ⟨.POST,
        "/m8/feeds/groups/" ++ self.contact_list ++ "/full",
        some g.xml, ps, esc⟩).status = true →
      (self.CreateGroup t g none ps esc).result =
        .ok (GroupEntryFromString (t ⟨.POST,
          "/m8/feeds/groups/" ++ self.contact_list ++ "/full",
          some g.xml, ps, esc⟩).body)) := by
  refine ⟨?_, ?_, ?_, ?_⟩
  · simp only [ContactsService.CreateContact, pyOrOptStr,
      contacts_default_uri, svcPost]
  · intro h
    simp only [ContactsService.CreateContact, pyOrOptStr,
      contacts_default_uri, svcPost, h, if_true]
  · simp only [ContactsService.CreateGroup, pyOrOptStr,
      groups_default_uri, svcPost]
  · intro h
    simp only [ContactsService.CreateGroup, pyOrOptStr,
      groups_default_uri, svcPost, h, if_true]

/-- C8 witness: on the default client against the all-2xx transport,
`CreateContact` POSTs to `/m8/feeds/contacts/default/full` and returns
the deserialized response body. -/
theorem c8_witness :
    (svcW.CreateContact tOk contactW none none true).requests =
      [⟨.POST, "/m8/feeds/contacts/default/full", some contactW.xml,
        none, true⟩] ∧
    (svcW.CreateContact tOk contactW none none true).result =
      .ok (ContactEntryFromString "BODY") := by
  have h := c8_create_default_post svcW tOk contactW groupW none true
  refine ⟨?_, ?_⟩
  · have h1 := h.1
    rwa [show ("/m8/feeds/contacts/" : String) ++ svcW.contact_list ++
        "/full" = "/m8/feeds/contacts/default/full" from by decide] at h1
  · have h2 := h.2.1 (by decide)
    exact h2.trans rfl

/-! ## Claim C5 -/

/-- C5 counterexample: on a contact entry with no photo-edit link,
`DeletePhoto` is not a no-op — `GetPhotoEditLink()` is `None`, so
reading `.href` raises a local `AttributeError` (while issuing no
network call), contradicting the claim that no error is raised. -/
theorem c5_counterexample :
    (svcW.DeletePhoto tOk (.entry entryNoLinks)).result =
      .error .attributeError ∧
    (svcW.DeletePhoto tOk (.entry entryNoLinks)).requests = [] ∧
    (svcW.DeletePhoto tOk (.entry entryNoLinks)).result ≠ .ok () := by
  refine ⟨rfl, rfl, ?_⟩
  intro h
  rw [show (svcW.DeletePhoto tOk (.entry entryNoLinks)).result =
    .error .attributeError from rfl] at h
  exact Except.noConfusion h

/-- C5 (amended): `DeletePhoto` is a no-op — no network call, no error —
exactly when the resolved URL is falsy: a contact entry whose photo-edit
link is present but carries an empty URL, or an empty URL argument.  An
entry with no photo-edit link at all instead fails with the same local
`AttributeError` as `ChangePhoto`, still without any network call. -/
theorem c5_delete_photo (self : ContactsService) (t : Transport)
    (target : PhotoTarget) :
    (∀ e l, target = .entry e → e.photoEditLink = some l → l.href = "" →
      self.DeletePhoto t target = ⟨.ok (), []⟩) ∧
    (target = .uri "" → self.DeletePhoto t target = ⟨.ok (), []⟩) ∧
    (∀ e, target = .entry e → e.photoEditLink = none →
      self.DeletePhoto t target = ⟨.error .attributeError, []⟩) := by
  refine ⟨?_, ?_, ?_⟩
  · intro e l ht hl hh
    subst ht
    simp [ContactsService.DeletePhoto, hl, hh, pyTruthyStr]
  · intro ht
    subst ht
    simp [ContactsService.DeletePhoto, pyTruthyStr]
  · intro e ht hl
    subst ht
    simp [ContactsService.DeletePhoto, hl]

/-- C5 witness: an entry whose photo-edit link has an empty URL is a
no-op for `DeletePhoto`. -/
theorem c5_witness :
    svcW.DeletePhoto tOk (.entry entryEmptyEditHref) = ⟨.ok (), []⟩ :=
  (c5_delete_photo svcW tOk (.entry entryEmptyEditHref)).1
    entryEmptyEditHref ⟨""⟩ rfl rfl rfl

/-! ## Claim C6 -/

/-- C6: on a contact entry lacking a photo-edit link, `ChangePhoto`
fails with the local `AttributeError` — a distinct error kind from
`RequestError` — and issues no network call. -/
theorem c6_change_photo_local_error (self : ContactsService)
    (t : Transport) (fs : FileSystem) (media : Media) (ct : Option String)
    (cl : Option Nat) (e : ContactEntry) (h : e.photoEditLink = none) :
    (self.ChangePhoto t fs media (.entry e) ct cl).result =
      .error .attributeError ∧
    (self.ChangePhoto t fs media (.entry e) ct cl).requests = [] ∧
    (∀ s r b, ServiceError.attributeError ≠ ServiceError.requestError s r b) := by
  refine ⟨?_, ?_, ?_⟩
  · simp [ContactsService.ChangePhoto, h]
  · simp [ContactsService.ChangePhoto, h]
  · intro s r b hne
    exact ServiceError.noConfusion hne

/-- C6 witness: the lookup failure on a concrete entry with no
photo-edit link, before any request is issued. -/
theorem c6_witness :
    (svcW.ChangePhoto tOk fsW mediaW (.entry entryNoLinks) none none).result =
      .error .attributeError ∧
    (svcW.ChangePhoto tOk fsW mediaW (.entry entryNoLinks) none none).requests =
      [] := by
  have h := c6_change_photo_local_error svcW tOk fsW mediaW none none
    entryNoLinks rfl
  exact ⟨h.1, h.2.1⟩

/-! ## Claim C7 -/

/-- C7 counterexample: a contact entry whose photo link is present but
carries an empty URL falsifies the claim — the entry has a photo link,
yet `GetPhoto` issues no GET and returns `None` instead of the response
body. -/
theorem c7_counterexample :
    entryEmptyPhotoHref.photoLink.isSome = true ∧
    (svcW.GetPhoto tOk (.entry entryEmptyPhotoHref)).requests = [] ∧
    (svcW.GetPhoto tOk (.entry entryEmptyPhotoHref)).result = .ok none ∧
    (Except.ok none : Except ServiceError (Option String)) ≠
      .ok (some "BODY") := by
  refine ⟨rfl, rfl, rfl, ?_⟩
  intro h
  simp at h

/-- C7 (amended): `GetPhoto` returns `None` immediately, issuing no
network call, when the resolved photo URL is falsy — an entry with no
photo link at all, an entry whose photo link has an empty URL, or an
empty URL argument.  For an entry with a photo link with a non-empty URL
or a non-empty URL argument it issues one GET to that URL and, on a 2xx
response, returns the raw response body uninterpreted (identity
converter). -/
theorem c7_get_photo (self : ContactsService) (t : Transport)
    (target : PhotoTarget) :
    (∀ e, target = .entry e → e.photoLink = none →
      self.GetPhoto t target = ⟨.ok none, []⟩) ∧
    (∀ e l, target = .entry e → e.photoLink = some l → l.href ≠ "" →
      (self.GetPhoto t target).requests = [⟨.GET, l.href, none, none, true⟩] ∧
      (isSuccessStatus (t ⟨.GET, l.href, none, none, true⟩).status = true →
        (self.GetPhoto t target).result =
          .ok (some (t ⟨.GET, l.href, none, none, true⟩).body))) ∧
    (∀ u, target = .uri u → u ≠ "" →
      (self.GetPhoto t target).requests = [⟨.GET, u, none, none, true⟩] ∧
      (isSuccessStatus (t ⟨.GET, u, none, none, true⟩).status = true →
        (self.GetPhoto t target).result =
          .ok (some (t ⟨.GET, u, none, none, true⟩).body))) ∧
    (∀ e l, target = .entry e → e.photoLink = some l → l.href = "" →
      self.GetPhoto t target = ⟨.ok none, []⟩) ∧
    (target = .uri "" → self.GetPhoto t target = ⟨.ok none, []⟩) := by
  refine ⟨?_, ?_, ?_, ?_, ?_⟩
  · intro e ht hl
    subst ht
    simp [ContactsService.GetPhoto, hl]
  · intro e l ht hl hh
    subst ht
    refine ⟨?_, ?_⟩
    · simp [ContactsService.GetPhoto, hl, hh, pyTruthyStr, svcGet]
    · intro hsucc
      simp [ContactsService.GetPhoto, hl, hh, pyTruthyStr, svcGet, hsucc,
        Except.map]
  · intro u ht hu
    subst ht
    refine ⟨?_, ?_⟩
    · simp [ContactsService.GetPhoto, hu, pyTruthyStr, svcGet]
    · intro hsucc
      simp [ContactsService.GetPhoto, hu, pyTruthyStr, svcGet, hsucc,
        Except.map]
  · intro e l ht hl hh
    subst ht
    simp [ContactsService.GetPhoto, hl, hh, pyTruthyStr]
  · intro ht
    subst ht
    simp [ContactsService.GetPhoto, pyTruthyStr]

/-- C7 witness: an entry with a non-empty photo link URL leads to one
GET to that URL and the raw body returned. -/
theorem c7_witness :
    (svcW.GetPhoto tOk (.entry entryWithLinks)).requests =
      [⟨.GET, "http://google.com/m8/feeds/photos/media/default/c1",
        none, none, true⟩] ∧
    (svcW.GetPhoto tOk (.entry entryWithLinks)).result = .ok (some "BODY") := by
  have h := (c7_get_photo svcW tOk (.entry entryWithLinks)).2.1
    entryWithLinks ⟨"http://google.com/m8/feeds/photos/media/default/c1"⟩
    rfl rfl (by decide)
  exact ⟨h.1, (h.2 (by decide)).trans rfl⟩

/-! ## Claim C9 -/

/-- C9: `ExecuteBatch` issues exactly one POST of the (serialized) batch
feed to the given URL, with no inspection of the feed, and on a 2xx
response returns the converter output unmodified, for every converter;
`ExecuteBatchProfiles` is extensionally identical, differing only in its
default converter (`ProfilesFeedFromString` instead of
`ContactsFeedFromString`). -/
theorem c9_execute_batch {α : Type} (self : ContactsService)
    (t : Transport) (batch_feed url : String) (conv : String → α) :
    (self.ExecuteBatch t batch_feed url conv).requests =
      [⟨.POST, url, some batch_feed, none, true⟩] ∧
    (isSuccessStatus (t ⟨.POST, url, some batch_feed, none, true⟩).status =
        true →
      (self.ExecuteBatch t batch_feed url conv).result =
        .ok (conv (t ⟨.POST, url, some batch_feed, none, true⟩).body)) ∧
    self.ExecuteBatchProfiles t batch_feed url conv =
      self.ExecuteBatch t batch_feed url conv ∧
    ContactsService.executeBatchDefaultConv = ContactsFeedFromString ∧
    ContactsService.executeBatchProfilesDefaultConv = ProfilesFeedFromString := by
  refine ⟨rfl, ?_, rfl, rfl, rfl⟩
  intro h
  simp [ContactsService.ExecuteBatch, svcPost, h]

/-- C9 witness: a concrete batch POST to the contacts batch endpoint
with the default contacts feed converter. -/
theorem c9_witness :
    (svcW.ExecuteBatch tOk "<feed/>" "/m8/feeds/contacts/default/full/batch"
      ContactsFeedFromString).requests =
      [⟨.POST, "/m8/feeds/contacts/default/full/batch", some "<feed/>",
        none, true⟩] ∧
    (svcW.ExecuteBatch tOk "<feed/>" "/m8/feeds/contacts/default/full/batch"
      ContactsFeedFromString).result = .ok (ContactsFeedFromString "BODY") := by
  have h := c9_execute_batch svcW tOk "<feed/>"
    "/m8/feeds/contacts/default/full/batch" ContactsFeedFromString
  exact ⟨h.1, (h.2.1 (by decide)).trans rfl⟩

/-! ## Claim C10 -/

/-- C10: `ChangePhoto` PUTs and `DeletePhoto` DELETEs to the resolved
photo target URL exactly as given — whether supplied directly or taken
from the photo-edit link of an entry — without the `_CleanUri`
normalization applied by the contact, group and profile update and
delete operations; the last conjunct records that `_CleanUri` would have
stripped a fully-qualified URL on the configured server. -/
theorem c10_photo_target_verbatim (self : ContactsService) (t : Transport)
    (fs : FileSystem) (media : Media) (ct : Option String) (cl : Option Nat)
    (u : String) (e : ContactEntry) (l : Link) :
    (self.ChangePhoto t fs media (.uri u) ct cl).requests =
      [⟨.PUT, u, some (ContactsService.buildPhotoPayload fs media ct cl).content,
        none, true⟩] ∧
    (e.photoEditLink = some l →
      (self.ChangePhoto t fs media (.entry e) ct cl).requests =
        [⟨.PUT, l.href,
          some (ContactsService.buildPhotoPayload fs media ct cl).content,
          none, true⟩]) ∧
    (u ≠ "" →
      (self.DeletePhoto t (.uri u)).requests =
        [⟨.DELETE, u, none, none, true⟩]) ∧
    (l.href ≠ "" → e.photoEditLink = some l →
      (self.DeletePhoto t (.entry e)).requests =
        [⟨.DELETE, l.href, none, none, true⟩]) ∧
    self.CleanUri ("http://" ++ self.server ++ "/photos/1") = "/photos/1" := by
  refine ⟨rfl, ?_, ?_, ?_, cleanUri_strip self "/photos/1"⟩
  · intro hl
    simp [ContactsService.ChangePhoto, hl, svcPut]
  · intro hu
    simp [ContactsService.DeletePhoto, pyTruthyStr, hu, svcDelete]
  · intro hh hl
    simp [ContactsService.DeletePhoto, hl, pyTruthyStr, hh, svcDelete]

/-- C10 witness: a fully-qualified photo-edit link on the configured
server is DELETEd unstripped, although `_CleanUri` would strip such a
URL. -/
theorem c10_witness :
    (svcW.DeletePhoto tOk (.entry entryWithLinks)).requests =
      [⟨.DELETE, "http://www.google.com/m8/feeds/photos/media/default/c1/e",
        none, none, true⟩] ∧
    svcW.CleanUri "http://www.google.com/photos/1" = "/photos/1" := by
  have h := c10_photo_target_verbatim svcW tOk fsW mediaW none none "u"
    entryWithLinks ⟨"http://www.google.com/m8/feeds/photos/media/default/c1/e"⟩
  refine ⟨h.2.2.2.1 (by decide) rfl, ?_⟩
  have h5 := h.2.2.2.2
  rwa [show ("http://" : String) ++ svcW.server ++ "/photos/1" =
    "http://www.google.com/photos/1" from by decide] at h5

end Gdata
